import Mathlib

/-!
Shallow embedding of the scanner data pipeline of the trading-dashboard
repository: the Polygon snapshot processing module (metric deriver,
strategy tags, scanner views, error handling of the snapshot client) and
the alert-diff logic of the consumer. JavaScript numbers are idealised as
rationals; the JavaScript falsy-coalescing operator `x || y` on numbers
(respectively strings) is made explicit via `jsOr` (respectively `jsOrS`).
-/

namespace TradingDashboard

/-- JavaScript `x || y` on numbers: `y` when `x` is falsy (zero), else `x`.
An absent optional-chained field (`a?.b`) is also falsy, which coincides
with modelling the absent field as `0`. -/
def jsOr (a b : ℚ) : ℚ := if a = 0 then b else a

/-- JavaScript `x || y` on strings: the empty string is falsy. -/
def jsOrS (a b : String) : String := if a = "" then b else a

/-- JavaScript `o?.f || d`: `d` when the record is absent or the field falsy. -/
def optJsOr (o : Option ℚ) (d : ℚ) : ℚ :=
  match o with
  | some x => jsOr x d
  | none => d

/-- JavaScript `o?.f || d` for string fields. -/
def optJsOrS (o : Option String) (d : String) : String :=
  match o with
  | some x => jsOrS x d
  | none => d

/-- JavaScript `Math.round(x * 100) / 100`: round to 2 decimal places,
halves toward positive infinity (`Math.round x = floor (x + 1/2)`). -/
def round2 (q : ℚ) : ℚ := (⌊q * 100 + 1/2⌋ : ℚ) / 100

/-- JavaScript `array.slice(-n)`: the last `n` elements (all of them when
the array is shorter), in order. -/
def takeLast (n : ℕ) (l : List α) : List α := (l.reverse.take n).reverse

/-- One OHLCV aggregate block (`day` / `prevDay` of a Polygon snapshot). -/
structure Agg where
  o : ℚ
  h : ℚ
  l : ℚ
  c : ℚ
  v : ℚ
  vw : ℚ
  deriving DecidableEq

/-- Minute aggregate block (`min?` of a Polygon snapshot); never read by the
deriver but part of the wire type. -/
structure MinAgg where
  av : ℚ
  o : ℚ
  h : ℚ
  l : ℚ
  c : ℚ
  v : ℚ
  vw : ℚ
  deriving DecidableEq

/-- Raw ticker snapshot (`PolygonTicker` interface). -/
structure PolygonTicker where
  ticker : String
  todaysChangePerc : ℚ
  todaysChange : ℚ
  updated : ℚ
  day : Agg
  prevDay : Agg
  min : Option MinAgg := none
  deriving DecidableEq

/-- Fundamentals record: the `FloatData` interface of the fundamentals
module (src/src/api/fmp.ts) — float share count, market capitalisation,
sector label, average volume. -/
structure FloatData where
  float : ℚ
  marketCap : ℚ
  sector : String
  avgVolume : ℚ
  deriving DecidableEq

/-- Derived per-symbol record (`ProcessedStock` interface). -/
structure ProcessedStock where
  symbol : String
  companyName : String
  exchange : String
  price : ℚ
  prevPrice : ℚ
  dayHigh : ℚ
  dayLow : ℚ
  dayOpen : ℚ
  volume : ℚ
  float : ℚ
  marketCap : ℚ
  sector : String
  rVol : ℚ
  prevRVol : ℚ
  gapPercent : ℚ
  changePercent : ℚ
  prevChangePercent : ℚ
  vwap : ℚ
  vwapDistance : ℚ
  high52w : ℚ
  low52w : ℚ
  time : String
  strategy : List String
  prevDayClose : ℚ
  prevDayVolume : ℚ
  isNew : Bool
  priceHistory : List ℚ
  deriving DecidableEq

/-- Strategy tag classifier (`getStrategy`). The source accepts a record
with possibly missing fields and defaults each read field with `|| 0`;
here the record is total and the defaults are kept literally. -/
def getStrategy (stock : ProcessedStock) : List String :=
  let float := jsOr stock.float 0
  let rVol := jsOr stock.rVol 0
  let gap := jsOr stock.gapPercent 0
  let change := jsOr stock.changePercent 0
  let price := jsOr stock.price 0
  let vwapDist := jsOr stock.vwapDistance 0
  let isPerfect := 0 < float ∧ float < 20000000 ∧ 4 ≤ gap ∧ 1 ≤ price ∧ price ≤ 20 ∧ 5 ≤ rVol
  let tags : List String := if isPerfect then ["🎯 Perfect Setup"] else []
  let tags := tags ++ (if 0 < float ∧ float < 10000000 ∧ 5 < rVol then ["Low Float Runner"] else [])
  let tags := tags ++ (if 20 < gap then ["Squeeze Alert"] else [])
  let tags := tags ++ (if -2 < vwapDist ∧ vwapDist < 2 ∧ 3 < change then ["VWAP Reclaim"] else [])
  let tags := tags ++ (if (jsOr stock.dayHigh 0) * (99 / 100) ≤ price ∧ 0 < change then ["HOD Break"] else [])
  let tags := tags ++ (if 10 < gap ∧ 3 < rVol then ["Gap & Go"] else [])
  let tags := if tags.length = 0 ∧ 5 < change then tags ++ ["Momentum"] else tags
  let tags := if tags.length = 0 then tags ++ ["In Play"] else tags
  tags.take 3

/-- Metric deriver (`processPolygonTicker`). The `timeStr` argument stands
for the wall-clock string `formatTime()` reads from the environment. -/
def processPolygonTicker (ticker : PolygonTicker) (prevData : Option ProcessedStock)
    (floatData : Option FloatData) (timeStr : String) : ProcessedStock :=
  let price := jsOr ticker.day.c (jsOr ticker.prevDay.c 0)
  let prevDayClose := jsOr ticker.prevDay.c price
  let dayOpen := jsOr ticker.day.o prevDayClose
  let volume := jsOr ticker.day.v 0
  let prevDayVolume := jsOr ticker.prevDay.v 1
  let vwap := jsOr ticker.day.vw (jsOr ((ticker.day.h + ticker.day.l + ticker.day.c) / 3) price)
  let gapPercent := if 0 < prevDayClose then ((dayOpen - prevDayClose) / prevDayClose) * 100 else 0
  let avgVol := optJsOr (floatData.map (·.avgVolume)) prevDayVolume
  let rVol := if 0 < avgVol then volume / avgVol else 1
  let vwapDistance := if 0 < vwap then ((price - vwap) / vwap) * 100 else 0
  let priceHistory := match prevData with
    | some p => takeLast 10 (p.priceHistory ++ [price])
    | none => [price]
  let stock : ProcessedStock := {
    symbol := ticker.ticker
    companyName := ticker.ticker
    exchange := "NASDAQ"
    price := price
    prevPrice := optJsOr (prevData.map (·.price)) price
    dayHigh := jsOr ticker.day.h price
    dayLow := jsOr ticker.day.l price
    dayOpen := dayOpen
    volume := volume
    float := optJsOr (floatData.map (·.float)) (optJsOr (prevData.map (·.float)) 0)
    marketCap := optJsOr (floatData.map (·.marketCap)) (optJsOr (prevData.map (·.marketCap)) 0)
    sector := optJsOrS (floatData.map (·.sector)) (optJsOrS (prevData.map (·.sector)) "")
    rVol := round2 rVol
    prevRVol := optJsOr (prevData.map (·.rVol)) rVol
    gapPercent := round2 gapPercent
    changePercent := round2 (jsOr ticker.todaysChangePerc 0)
    prevChangePercent := optJsOr (prevData.map (·.changePercent)) (jsOr ticker.todaysChangePerc 0)
    vwap := vwap
    vwapDistance := round2 vwapDistance
    high52w := 0
    low52w := 0
    time := timeStr
    strategy := []
    prevDayClose := prevDayClose
    prevDayVolume := prevDayVolume
    isNew := prevData.isNone
    priceHistory := priceHistory }
  { stock with strategy := getStrategy stock }

/-- Qualifying-setup predicate (`matchesCriteria`). -/
def matchesCriteria (stock : ProcessedStock) : Bool :=
  decide (4 ≤ stock.gapPercent ∧
    1 ≤ stock.price ∧
    stock.price ≤ 20 ∧
    5 ≤ stock.rVol ∧
    (stock.float = 0 ∨ stock.float < 20000000))

/-- Api status reported by the pipeline. -/
inductive ApiStatus where
  | live
  | delayed
  | offline
  deriving DecidableEq

/-- The three ranked views produced by one scanner cycle. -/
structure ScannerViews where
  gappers : List ProcessedStock
  momentum : List ProcessedStock
  highRvol : List ProcessedStock
  deriving DecidableEq

/-- Descending gap-percent comparator (`(a, b) => b.gapPercent - a.gapPercent`). -/
def gapDescLE (a b : ProcessedStock) : Bool := decide (b.gapPercent ≤ a.gapPercent)

/-- Descending change-percent comparator. -/
def changeDescLE (a b : ProcessedStock) : Bool := decide (b.changePercent ≤ a.changePercent)

/-- Descending relative-volume comparator. -/
def rVolDescLE (a b : ProcessedStock) : Bool := decide (b.rVol ≤ a.rVol)

/-- `const validStocks = processed.filter(s => s.price > 0 && s.volume > 0)`. -/
def validStocks (processed : List ProcessedStock) : List ProcessedStock :=
  processed.filter (fun s => decide (0 < s.price ∧ 0 < s.volume))

/-- The gappers ranking: valid records with gap% above 4, sorted by gap%
descending, top 25. JavaScript `Array.prototype.sort` is stable, modelled
by `List.mergeSort`. -/
def gappersView (processed : List ProcessedStock) : List ProcessedStock :=
  (((validStocks processed).filter (fun s => decide (4 < s.gapPercent))).mergeSort gapDescLE).take 25

/-- The momentum ranking: valid records with change% above 5, descending, top 25. -/
def momentumView (processed : List ProcessedStock) : List ProcessedStock :=
  (((validStocks processed).filter (fun s => decide (5 < s.changePercent))).mergeSort changeDescLE).take 25

/-- The high-RVol ranking: valid records with rVol above 1.5, descending, top 25. -/
def highRvolView (processed : List ProcessedStock) : List ProcessedStock :=
  (((validStocks processed).filter (fun s => decide (3/2 < s.rVol))).mergeSort rVolDescLE).take 25

/-- Pure view-building core of `fetchScannerData`: each view falls back to
the first 25 valid records when its filtered ranking is empty. -/
def scannerViews (processed : List ProcessedStock) : ScannerViews :=
  { gappers := if 0 < (gappersView processed).length then gappersView processed
      else (validStocks processed).take 25
    momentum := if 0 < (momentumView processed).length then momentumView processed
      else (validStocks processed).take 25
    highRvol := if 0 < (highRvolView processed).length then highRvolView processed
      else (validStocks processed).take 25 }

/-- `fetchScannerData` after its network effects are abstracted: the gainers
list, the previous-cycle lookup and the fundamentals map are inputs; every
ticker is derived and the three views are ranked. Status is always
`delayed` on this (successful) path. -/
def fetchScannerData (gainers : List PolygonTicker)
    (prevLookup : String → Option ProcessedStock)
    (floatMap : String → Option FloatData) (timeStr : String) :
    ScannerViews × ApiStatus :=
  let processed := gainers.map (fun t =>
    processPolygonTicker t (prevLookup t.ticker) (floatMap t.ticker) timeStr)
  (scannerViews processed, ApiStatus.delayed)

/-- Outcome kind of a snapshot-client call: the distinct plan-upgrade error
(the `PolygonUpgradeError` class) versus the generic `API Error` failure. -/
inductive PolygonErrorKind where
  | PolygonUpgradeError
  | ApiError (status : ℕ)
  deriving DecidableEq

/-- Abstract HTTP response for the list-snapshot endpoints: a status code
and the optional `tickers` array of the JSON body. -/
structure SnapshotListResponse where
  status : ℕ
  tickers : Option (List PolygonTicker) := none
  deriving DecidableEq

/-- `response.ok` of the fetch API: status in [200, 300). -/
def respOk (status : ℕ) : Bool := decide (200 ≤ status ∧ status < 300)

/-- Result of one `fetchGainers` call: the new value of the module-level
`logged403` flag, whether the plan-restriction warning was written on this
call, and the returned value or thrown error. -/
structure FetchOutcome (α : Type) where
  logged403 : Bool
  warned : Bool
  result : Except PolygonErrorKind α

/-- `fetchGainers`, with the process-wide mutable `logged403` flag passed
explicitly and the HTTP response abstracted as input. -/
def fetchGainers (logged403 : Bool) (resp : SnapshotListResponse) :
    FetchOutcome (List PolygonTicker) :=
  if resp.status = 403 then
    { logged403 := true, warned := !logged403,
      result := Except.error PolygonErrorKind.PolygonUpgradeError }
  else if !respOk resp.status then
    { logged403 := logged403, warned := false,
      result := Except.error (PolygonErrorKind.ApiError resp.status) }
  else
    { logged403 := logged403, warned := false,
      result := Except.ok (resp.tickers.getD []) }

/-- `fetchLosers`: identical logic, sharing the same `logged403` flag. -/
def fetchLosers (logged403 : Bool) (resp : SnapshotListResponse) :
    FetchOutcome (List PolygonTicker) :=
  if resp.status = 403 then
    { logged403 := true, warned := !logged403,
      result := Except.error PolygonErrorKind.PolygonUpgradeError }
  else if !respOk resp.status then
    { logged403 := logged403, warned := false,
      result := Except.error (PolygonErrorKind.ApiError resp.status) }
  else
    { logged403 := logged403, warned := false,
      result := Except.ok (resp.tickers.getD []) }

/-- A process lifetime of successive `fetchGainers` calls: threads the
`logged403` flag through and counts the warnings written. -/
def runFetchGainers (logged403 : Bool) (resps : List SnapshotListResponse) : Bool × ℕ :=
  resps.foldl (fun acc resp =>
    let out := fetchGainers acc.1 resp
    (out.logged403, acc.2 + (if out.warned then 1 else 0))) (logged403, 0)

/-- Abstract HTTP response for the single-symbol snapshot endpoint. -/
structure SnapshotResponse where
  status : ℕ
  ticker : Option PolygonTicker := none
  deriving DecidableEq

/-- What `fetchTickerSnapshot` writes to the console on each path. -/
inductive SnapshotLog where
  | notFoundLog
  | noTickerLog
  | successLog
  | fetchErrorLog
  deriving DecidableEq

/-- `fetchTickerSnapshot`: `resp = none` models a network exception of the
fetch itself. A non-2xx status other than 404 throws, but the surrounding
catch block logs the error and returns null, exactly like the exception
path; only the 404 path logs informationally. -/
def fetchTickerSnapshot (resp : Option SnapshotResponse) (floatData : Option FloatData)
    (timeStr : String) : Option ProcessedStock × SnapshotLog :=
  match resp with
  | none => (none, SnapshotLog.fetchErrorLog)
  | some r =>
    if !respOk r.status then
      if r.status = 404 then (none, SnapshotLog.notFoundLog)
      else (none, SnapshotLog.fetchErrorLog)
    else
      match r.ticker with
      | none => (none, SnapshotLog.noTickerLog)
      | some t => (some (processPolygonTicker t none floatData timeStr), SnapshotLog.successLog)

/-- Spike (breakout) alert condition of the consumer (App.tsx `fetchData`):
`changeDiff = stock.changePercent - prevStock.prevChangePercent`, alert
when `changeDiff > alertSettings.changeThreshold`. -/
def spikeAlertFires (stock prevStock : ProcessedStock) (changeThreshold : ℚ) : Bool :=
  decide (changeThreshold < stock.changePercent - prevStock.prevChangePercent)

/-- Default `changeThreshold` of `DEFAULT_ALERT_SETTINGS`. -/
def defaultChangeThreshold : ℚ := 3

/-- Price the deriver assigns to a raw snapshot
(`ticker.day?.c || ticker.prevDay?.c || 0`). -/
def tickerPrice (t : PolygonTicker) : ℚ := jsOr t.day.c (jsOr t.prevDay.c 0)

/-- Sequentially derive a list of snapshots, feeding each output into the
next call as the previous record, starting from no previous record. -/
def chainDerive (ts : List PolygonTicker) (timeStr : String) : Option ProcessedStock :=
  ts.foldl (fun prev t => some (processPolygonTicker t prev none timeStr)) none

/-- Modelled from the spec: the ordered (predicate, tag) rule table of the
strategy classifier, spec section 4.3 rule 9. -/
def specStrategyRules : List ((ProcessedStock → Bool) × String) :=
  [ (fun s => decide (0 < s.float ∧ s.float < 20000000 ∧ 4 ≤ s.gapPercent ∧
      1 ≤ s.price ∧ s.price ≤ 20 ∧ 5 ≤ s.rVol), "🎯 Perfect Setup"),
    (fun s => decide (0 < s.float ∧ s.float < 10000000 ∧ 5 < s.rVol), "Low Float Runner"),
    (fun s => decide (20 < s.gapPercent), "Squeeze Alert"),
    (fun s => decide (-2 < s.vwapDistance ∧ s.vwapDistance < 2 ∧ 3 < s.changePercent), "VWAP Reclaim"),
    (fun s => decide (s.dayHigh * (99 / 100) ≤ s.price ∧ 0 < s.changePercent), "HOD Break"),
    (fun s => decide (10 < s.gapPercent ∧ 3 < s.rVol), "Gap & Go") ]

/-- Modelled from the spec: evaluate the rule table in order, keep the
first 3 matches; if none matched, tag Momentum when change% above 5, else
tag In Play. -/
def specStrategy (s : ProcessedStock) : List String :=
  let matched := ((specStrategyRules.filter (fun r => r.1 s)).map (fun r => r.2)).take 3
  if matched = [] then (if 5 < s.changePercent then ["Momentum"] else ["In Play"]) else matched

/-- Modelled from the spec: the relative-volume denominator of spec rule 3 —
the cached average volume if present and positive, else the previous-day
volume, else 1. -/
def rVolDenominator (t : PolygonTicker) (fd : Option FloatData) : ℚ :=
  let fromPrevDay := if 0 < t.prevDay.v then t.prevDay.v else 1
  match fd with
  | some f => if 0 < f.avgVolume then f.avgVolume else fromPrevDay
  | none => fromPrevDay

/-! Concrete inputs used to instantiate the theorems below. -/

/-- A flat OHLCV block with close `c` and volume `v`. -/
def demoAgg (c v : ℚ) : Agg := { o := c, h := c, l := c, c := c, v := v, vw := c }

/-- A snapshot closing at 10 today (volume 1000) and 9 yesterday (volume
500), with the given change percentage. -/
def demoTicker (sym : String) (chg : ℚ) : PolygonTicker :=
  { ticker := sym, todaysChangePerc := chg, todaysChange := 0, updated := 0,
    day := demoAgg 10 1000, prevDay := demoAgg 9 500 }

/-- A snapshot whose current-day open is absent (0). -/
def gapDemoTicker : PolygonTicker :=
  { ticker := "GAP", todaysChangePerc := 0, todaysChange := 0, updated := 0,
    day := { o := 0, h := 10, l := 8, c := 9, v := 100, vw := 9 },
    prevDay := demoAgg 9 500 }

/-- A fully populated derived record with the given float, gap%, price and
relative volume. -/
def demoStock (sym : String) (float gap price rvol : ℚ) : ProcessedStock :=
  { symbol := sym, companyName := sym, exchange := "NASDAQ",
    price := price, prevPrice := price, dayHigh := price, dayLow := price,
    dayOpen := price, volume := 1000, float := float, marketCap := 1000000,
    sector := "Tech", rVol := rvol, prevRVol := rvol, gapPercent := gap,
    changePercent := 0, prevChangePercent := 0, vwap := price,
    vwapDistance := 0, high52w := 0, low52w := 0, time := "", strategy := [],
    prevDayClose := price, prevDayVolume := 500, isNew := false,
    priceHistory := [price] }

/-- A fundamentals record reporting float as unknown (0). -/
def demoFloatZero : FloatData :=
  { float := 0, marketCap := 7, sector := "Energy", avgVolume := 0 }

/-- Cycle 1 of the spike-alert scenario: change 1 percent. -/
def spikeP1 : ProcessedStock := processPolygonTicker (demoTicker "XYZ" 1) none none ""

/-- Cycle 2 of the spike-alert scenario: change 10 percent. -/
def spikeP2 : ProcessedStock := processPolygonTicker (demoTicker "XYZ" 10) (some spikeP1) none ""

/-- Cycle 3 of the spike-alert scenario: change 5 percent (a drop of 5
points against cycle 2). -/
def spikeP3 : ProcessedStock := processPolygonTicker (demoTicker "XYZ" 5) (some spikeP2) none ""

/-! Helper lemmas. -/

theorem jsOr_zero (a : ℚ) : jsOr a 0 = a := by
  unfold jsOr
  split <;> simp_all

theorem round2_zero : round2 0 = 0 := by
  norm_num [round2]

theorem round2_nonneg {q : ℚ} (h : 0 ≤ q) : 0 ≤ round2 q := by
  unfold round2
  have h1 : (0 : ℚ) ≤ q * 100 + 1 / 2 := by positivity
  have h2 : (0 : ℤ) ≤ ⌊q * 100 + 1 / 2⌋ := by
    exact_mod_cast Int.le_floor.mpr (by exact_mod_cast h1)
  positivity

/-! C10 -/

/-- C10: when the current-day open is absent or zero, the deriver
substitutes the previous-day close for `dayOpen`, and for every snapshot
with a positive previous-day close the derived `gapPercent` is 0
regardless of the actual overnight gap. -/
theorem missing_day_open_forces_zero_gap (t : PolygonTicker) (prev : Option ProcessedStock)
    (fd : Option FloatData) (timeStr : String) (ho : t.day.o = 0) (hc : 0 < t.prevDay.c) :
    (processPolygonTicker t prev fd timeStr).dayOpen =
      (processPolygonTicker t prev fd timeStr).prevDayClose ∧
    (processPolygonTicker t prev fd timeStr).gapPercent = 0 := by
  have hc' : t.prevDay.c ≠ 0 := ne_of_gt hc
  constructor
  · simp [processPolygonTicker, jsOr, ho, hc']
  · simp [processPolygonTicker, jsOr, ho, hc', round2_zero]

/-- Witness for C10 at a concrete snapshot with `day.o = 0`. -/
theorem missing_day_open_forces_zero_gap_witness :
    (processPolygonTicker gapDemoTicker none none "").gapPercent = 0 :=
  (missing_day_open_forces_zero_gap gapDemoTicker none none ""
    (by norm_num [gapDemoTicker]) (by norm_num [gapDemoTicker, demoAgg])).2

/-! C9 -/

/-- C9: each fundamentals-derived field is chosen by non-zero-ness, not by
presence of the fundamentals record — a freshly supplied zero (or empty
string) falls back to the previous record (or 0 / empty string when there
is none), while a non-zero fresh value wins. -/
theorem fundamentals_zero_falls_back (t : PolygonTicker) (prev : Option ProcessedStock)
    (f : FloatData) (timeStr : String) :
    ((f.float = 0 → (processPolygonTicker t prev (some f) timeStr).float =
        (match prev with | some p => p.float | none => 0))
      ∧ (f.float ≠ 0 → (processPolygonTicker t prev (some f) timeStr).float = f.float))
    ∧ ((f.marketCap = 0 → (processPolygonTicker t prev (some f) timeStr).marketCap =
        (match prev with | some p => p.marketCap | none => 0))
      ∧ (f.marketCap ≠ 0 → (processPolygonTicker t prev (some f) timeStr).marketCap = f.marketCap))
    ∧ ((f.sector = "" → (processPolygonTicker t prev (some f) timeStr).sector =
        (match prev with | some p => p.sector | none => ""))
      ∧ (f.sector ≠ "" → (processPolygonTicker t prev (some f) timeStr).sector = f.sector)) := by
  refine ⟨⟨?_, ?_⟩, ⟨?_, ?_⟩, ⟨?_, ?_⟩⟩ <;> intro h <;> cases prev <;>
    simp [processPolygonTicker, optJsOr, jsOr, optJsOrS, jsOrS, h] <;>
    first
    | (split <;> simp_all)
    | (intro h2; simp [h2])

/-- Witness for C9: a fundamentals record with float 0 yields the float of
the previous cycle, and its non-zero market cap wins over the previous. -/
theorem fundamentals_zero_falls_back_witness :
    ((processPolygonTicker (demoTicker "W" 1) (some (demoStock "W" 123 0 5 1))
        (some demoFloatZero) "").float = (demoStock "W" 123 0 5 1).float)
    ∧ ((processPolygonTicker (demoTicker "W" 1) (some (demoStock "W" 123 0 5 1))
        (some demoFloatZero) "").marketCap = demoFloatZero.marketCap) :=
  ⟨(fundamentals_zero_falls_back (demoTicker "W" 1) (some (demoStock "W" 123 0 5 1))
      demoFloatZero "").1.1 (by norm_num [demoFloatZero]),
    (fundamentals_zero_falls_back (demoTicker "W" 1) (some (demoStock "W" 123 0 5 1))
      demoFloatZero "").2.1.2 (by norm_num [demoFloatZero])⟩

/-! C1 -/

/-- C1: the derived relative volume equals the current volume divided by
the claimed denominator (cached average volume when present and positive,
else previous-day volume, else 1), rounded to 2 decimals, and is
non-negative for every valid raw snapshot (non-negative volumes). -/
theorem rVol_spec (t : PolygonTicker) (prev : Option ProcessedStock) (fd : Option FloatData)
    (timeStr : String) (hv : 0 ≤ t.day.v) (hpv : 0 ≤ t.prevDay.v)
    (hfd : ∀ f, fd = some f → 0 ≤ f.avgVolume) :
    (processPolygonTicker t prev fd timeStr).rVol = round2 (t.day.v / rVolDenominator t fd) ∧
    0 ≤ (processPolygonTicker t prev fd timeStr).rVol := by
  have hfrom : (if t.prevDay.v = 0 then (1 : ℚ) else t.prevDay.v) =
      if 0 < t.prevDay.v then t.prevDay.v else 1 := by
    rcases eq_or_lt_of_le hpv with h | h
    · simp [← h]
    · simp [h.ne', h]
  have hfrompos : 0 < (if 0 < t.prevDay.v then t.prevDay.v else 1 : ℚ) := by
    split <;> norm_num
    assumption
  have hden : optJsOr (fd.map (·.avgVolume)) (jsOr t.prevDay.v 1) = rVolDenominator t fd := by
    cases fd with
    | none => simpa [optJsOr, jsOr, rVolDenominator] using hfrom
    | some f =>
      have hf : 0 ≤ f.avgVolume := hfd f rfl
      rcases eq_or_lt_of_le hf with h | h
      · simpa [optJsOr, jsOr, rVolDenominator, ← h] using hfrom
      · simp [optJsOr, jsOr, rVolDenominator, h.ne', h]
  have hdenpos : 0 < rVolDenominator t fd := by
    cases fd with
    | none => simpa [rVolDenominator] using hfrompos
    | some f =>
      by_cases h : 0 < f.avgVolume
      · simpa [rVolDenominator, h] using h
      · simpa [rVolDenominator, h] using hfrompos
  have hproj : (processPolygonTicker t prev fd timeStr).rVol =
      round2 (jsOr t.day.v 0 / rVolDenominator t fd) := by
    simp [processPolygonTicker, hden, hdenpos]
  rw [hproj, jsOr_zero]
  exact ⟨rfl, round2_nonneg (div_nonneg hv hdenpos.le)⟩

/-- Witness for C1 at a concrete snapshot with no fundamentals record. -/
theorem rVol_spec_witness :
    (processPolygonTicker (demoTicker "W" 1) none none "").rVol =
      round2 ((demoTicker "W" 1).day.v / rVolDenominator (demoTicker "W" 1) none) ∧
    0 ≤ (processPolygonTicker (demoTicker "W" 1) none none "").rVol :=
  rVol_spec (demoTicker "W" 1) none none ""
    (by norm_num [demoTicker, demoAgg]) (by norm_num [demoTicker, demoAgg])
    (by intro f h; cases h)

/-! C5 -/

theorem runFetchGainers_warn_le (resps : List SnapshotListResponse) (flag : Bool) (n : ℕ) :
    (resps.foldl (fun acc resp =>
      let out := fetchGainers acc.1 resp
      (out.logged403, acc.2 + (if out.warned then 1 else 0))) (flag, n)).2 ≤
      n + (if flag then 0 else 1) := by
  induction resps generalizing flag n with
  | nil => simp
  | cons r rs ih =>
    by_cases h403 : r.status = 403
    · cases flag with
      | true => simpa [fetchGainers, h403] using ih true n
      | false =>
        have := ih true (n + 1)
        simpa [fetchGainers, h403] using this
    · by_cases hok : respOk r.status
      · have := ih flag n
        cases flag <;> simpa [fetchGainers, h403, hok] using this
      · have := ih flag n
        cases flag <;> simpa [fetchGainers, h403, hok] using this

/-- C5: a 403 response to the gainers fetch produces the distinct
`PolygonUpgradeError` kind (a constructor different from every generic
`ApiError`), and across any sequence of such calls in one process the
plan-restriction warning is written at most once. -/
theorem fetchGainers_403_spec :
    (∀ (logged : Bool) (resp : SnapshotListResponse), resp.status = 403 →
      (fetchGainers logged resp).result =
        Except.error PolygonErrorKind.PolygonUpgradeError)
    ∧ (∀ status : ℕ,
        PolygonErrorKind.PolygonUpgradeError ≠ PolygonErrorKind.ApiError status)
    ∧ (∀ resps : List SnapshotListResponse, (runFetchGainers false resps).2 ≤ 1) := by
  refine ⟨?_, ?_, ?_⟩
  · intro logged resp h
    simp [fetchGainers, h]
  · intro status h
    cases h
  · intro resps
    simpa [runFetchGainers] using runFetchGainers_warn_le resps false 0

/-- Witness for C5: a concrete 403 response throws the upgrade error, and
two successive 403 calls warn at most once. -/
theorem fetchGainers_403_spec_witness :
    (fetchGainers false { status := 403 }).result =
      Except.error PolygonErrorKind.PolygonUpgradeError ∧
    (runFetchGainers false [{ status := 403 }, { status := 403 }]).2 ≤ 1 :=
  ⟨fetchGainers_403_spec.1 false { status := 403 } rfl,
    fetchGainers_403_spec.2.2 [{ status := 403 }, { status := 403 }]⟩

/-! C7 -/

/-- Counterexample for C7: a 500 response (and a network exception) return
the same value at the call site as the 404 not-found outcome — `none` —
so the failure is not observably different from not-found in the returned
result. -/
theorem snapshot_failure_counterexample :
    (fetchTickerSnapshot (some { status := 500 }) none "").1 = none ∧
    (fetchTickerSnapshot (some { status := 404 }) none "").1 = none ∧
    (fetchTickerSnapshot (some { status := 500 }) none "").1 =
      (fetchTickerSnapshot (some { status := 404 }) none "").1 ∧
    (fetchTickerSnapshot none none "").1 =
      (fetchTickerSnapshot (some { status := 404 }) none "").1 := by
  refine ⟨rfl, rfl, rfl, rfl⟩

/-- C7 amended: a 404 returns the defined not-found outcome (null result,
informational log); any other non-2xx response or network exception is
caught inside the function, logged as an error, and also returns null —
the two outcomes differ only in the log kind, not in the returned value. -/
theorem snapshot_not_found_spec (fd : Option FloatData) (ts : String) :
    (∀ r : SnapshotResponse, r.status = 404 →
      fetchTickerSnapshot (some r) fd ts = (none, SnapshotLog.notFoundLog))
    ∧ (∀ r : SnapshotResponse, ¬(200 ≤ r.status ∧ r.status < 300) → r.status ≠ 404 →
      fetchTickerSnapshot (some r) fd ts = (none, SnapshotLog.fetchErrorLog))
    ∧ fetchTickerSnapshot none fd ts = (none, SnapshotLog.fetchErrorLog)
    ∧ SnapshotLog.notFoundLog ≠ SnapshotLog.fetchErrorLog := by
  refine ⟨?_, ?_, rfl, by simp⟩
  · intro r h
    simp [fetchTickerSnapshot, respOk, h]
  · intro r hok h404
    simp [fetchTickerSnapshot, respOk, hok, h404]

/-- Witness for C7 amended at concrete 404 and 500 responses. -/
theorem snapshot_not_found_spec_witness :
    fetchTickerSnapshot (some { status := 404 }) none "" = (none, SnapshotLog.notFoundLog) ∧
    fetchTickerSnapshot (some { status := 500 }) none "" = (none, SnapshotLog.fetchErrorLog) :=
  ⟨(snapshot_not_found_spec none "").1 { status := 404 } rfl,
    (snapshot_not_found_spec none "").2.1 { status := 500 } (by norm_num) (by norm_num)⟩

/-! C6 -/

/-- Counterexample for C6: chaining three derived cycles of the same
symbol with change percentages 1, 10, 5, the third cycle raises a spike
alert at the default threshold even though its change percentage dropped
by 5 points relative to the previous cycle — the code compares against
the previous record `prevChangePercent` field, not its `changePercent`. -/
theorem spike_alert_counterexample :
    spikeP2.symbol = spikeP3.symbol ∧
    spikeAlertFires spikeP3 spikeP2 defaultChangeThreshold = true ∧
    ¬ (defaultChangeThreshold < spikeP3.changePercent - spikeP2.changePercent) := by
  refine ⟨rfl, ?_, ?_⟩
  · norm_num [spikeAlertFires, spikeP3, spikeP2, spikeP1, demoTicker, demoAgg,
      processPolygonTicker, jsOr, optJsOr, jsOrS, optJsOrS, round2, defaultChangeThreshold]
  · norm_num [spikeP3, spikeP2, spikeP1, demoTicker, demoAgg,
      processPolygonTicker, jsOr, optJsOr, jsOrS, optJsOrS, round2, defaultChangeThreshold]

/-- C6 amended: for a symbol whose previous-cycle record was itself derived
from a yet earlier record with non-zero change percentage, the spike alert
fires exactly when the new change percentage exceeds that earlier
(two-cycles-back) change percentage by more than the threshold. -/
theorem spike_alert_amended (t2 t3 : PolygonTicker) (p1 : ProcessedStock)
    (fd2 fd3 : Option FloatData) (s2 s3 : String) (thr : ℚ)
    (h : p1.changePercent ≠ 0) :
    spikeAlertFires
        (processPolygonTicker t3 (some (processPolygonTicker t2 (some p1) fd2 s2)) fd3 s3)
        (processPolygonTicker t2 (some p1) fd2 s2) thr = true ↔
      thr < (processPolygonTicker t3
        (some (processPolygonTicker t2 (some p1) fd2 s2)) fd3 s3).changePercent -
          p1.changePercent := by
  have hprev : (processPolygonTicker t2 (some p1) fd2 s2).prevChangePercent =
      p1.changePercent := by
    simp [processPolygonTicker, optJsOr, jsOr, h]
  simp [spikeAlertFires, hprev]

/-- Witness for C6 amended at the concrete three-cycle scenario. -/
theorem spike_alert_amended_witness :
    spikeAlertFires spikeP3 spikeP2 defaultChangeThreshold = true ↔
      defaultChangeThreshold < spikeP3.changePercent - spikeP1.changePercent :=
  spike_alert_amended (demoTicker "XYZ" 10) (demoTicker "XYZ" 5) spikeP1 none none "" ""
    defaultChangeThreshold
    (by norm_num [spikeP1, demoTicker, demoAgg, processPolygonTicker,
      jsOr, optJsOr, jsOrS, optJsOrS, round2])

/-! C8 -/

/-- C8: `matchesCriteria` holds exactly on gap% at least 4, price in
[1, 20], rVol at least 5 and float unknown (0) or under 20,000,000; and
any record with float 15,000,000, gap% 6, price 8 and rVol 7 is tagged
Perfect Setup and matches the criteria. -/
theorem perfect_setup_example (s : ProcessedStock) :
    (matchesCriteria s = true ↔
      (4 ≤ s.gapPercent ∧ 1 ≤ s.price ∧ s.price ≤ 20 ∧ 5 ≤ s.rVol ∧
        (s.float = 0 ∨ s.float < 20000000)))
    ∧ (s.float = 15000000 → s.gapPercent = 6 → s.price = 8 → s.rVol = 7 →
      "🎯 Perfect Setup" ∈ getStrategy s ∧ matchesCriteria s = true) := by
  constructor
  · simp [matchesCriteria]
  · intro h1 h2 h3 h4
    constructor
    · simp only [getStrategy, jsOr_zero, h1, h2, h3, h4]
      norm_num
    · simp only [matchesCriteria, h1, h2, h3, h4]
      norm_num

/-- Witness for C8 at a concrete record with the example field values. -/
theorem perfect_setup_example_witness :
    "🎯 Perfect Setup" ∈ getStrategy (demoStock "PF" 15000000 6 8 7) ∧
    matchesCriteria (demoStock "PF" 15000000 6 8 7) = true :=
  (perfect_setup_example (demoStock "PF" 15000000 6 8 7)).2 rfl rfl rfl rfl

/-! C4 -/

theorem takeLast_takeLast_append (n : ℕ) (a b : List α) :
    takeLast n (takeLast n a ++ b) = takeLast n (a ++ b) := by
  unfold takeLast
  rw [List.reverse_append, List.reverse_reverse, List.reverse_append]
  congr 1
  rw [List.take_append_eq_append_take, List.take_append_eq_append_take, List.take_take,
    Nat.min_eq_left (Nat.sub_le _ _)]

theorem takeLast_idem (n : ℕ) (l : List α) : takeLast n (takeLast n l) = takeLast n l := by
  simpa using takeLast_takeLast_append n l []

theorem takeLast_eq_drop (n : ℕ) (l : List α) : takeLast n l = l.drop (l.length - n) := by
  unfold takeLast
  rw [List.reverse_take, List.reverse_reverse, List.length_reverse]

theorem processPolygonTicker_priceHistory_some (t : PolygonTicker) (p : ProcessedStock)
    (fd : Option FloatData) (s : String) :
    (processPolygonTicker t (some p) fd s).priceHistory =
      takeLast 10 (p.priceHistory ++ [tickerPrice t]) := by
  simp [processPolygonTicker, tickerPrice]

theorem chainDerive_from_some (ts : List PolygonTicker) (p : ProcessedStock) (timeStr : String)
    (hp : takeLast 10 p.priceHistory = p.priceHistory) :
    ∃ out, ts.foldl (fun prev t => some (processPolygonTicker t prev none timeStr))
        (some p) = some out ∧
      out.priceHistory = takeLast 10 (p.priceHistory ++ ts.map tickerPrice) := by
  induction ts generalizing p with
  | nil => exact ⟨p, rfl, by simpa using hp.symm⟩
  | cons t rest ih =>
    have hist2 : (processPolygonTicker t (some p) none timeStr).priceHistory =
        takeLast 10 (p.priceHistory ++ [tickerPrice t]) :=
      processPolygonTicker_priceHistory_some t p none timeStr
    have hp2 : takeLast 10 (processPolygonTicker t (some p) none timeStr).priceHistory =
        (processPolygonTicker t (some p) none timeStr).priceHistory := by
      rw [hist2, takeLast_idem]
    obtain ⟨out, hfold, hout⟩ := ih (processPolygonTicker t (some p) none timeStr) hp2
    refine ⟨out, by simpa [List.foldl_cons] using hfold, ?_⟩
    rw [hout, hist2, takeLast_takeLast_append, List.append_assoc]
    simp

/-- C4: from no previous record the deriver produces the singleton history
and flags the record as new; chaining 15 sequential derive calls, the
final price history is exactly the last 10 observed prices in
chronological order and has length 10. -/
theorem priceHistory_bounded (ts : List PolygonTicker) (timeStr : String)
    (h : ts.length = 15) :
    (∀ (t : PolygonTicker) (fd : Option FloatData) (s : String),
      (processPolygonTicker t none fd s).priceHistory = [tickerPrice t] ∧
      (processPolygonTicker t none fd s).isNew = true)
    ∧ ∃ out, chainDerive ts timeStr = some out ∧
        out.priceHistory = (ts.map tickerPrice).drop 5 ∧
        out.priceHistory.length = 10 := by
  constructor
  · intro t fd s
    constructor
    · simp [processPolygonTicker, tickerPrice]
    · simp [processPolygonTicker]
  · cases ts with
    | nil => simp at h
    | cons t rest =>
      have hp : takeLast 10 (processPolygonTicker t none none timeStr).priceHistory =
          (processPolygonTicker t none none timeStr).priceHistory := by
        simp [processPolygonTicker, takeLast]
      obtain ⟨out, hfold, hout⟩ := chainDerive_from_some rest
        (processPolygonTicker t none none timeStr) timeStr hp
      have hsing : (processPolygonTicker t none none timeStr).priceHistory =
          [tickerPrice t] := by
        simp [processPolygonTicker, tickerPrice]
      have hlen : ((t :: rest).map tickerPrice).length = 15 := by
        simpa using h
      refine ⟨out, by simpa [chainDerive, List.foldl_cons] using hfold, ?_, ?_⟩
      · rw [hout, hsing, takeLast_eq_drop]
        simp only [List.singleton_append, ← List.map_cons]
        rw [hlen]
      · rw [hout, hsing, takeLast_eq_drop]
        simp only [List.singleton_append, ← List.map_cons]
        rw [List.length_drop, hlen]

/-- Witness for C4 on a concrete run of 15 identical snapshots. -/
theorem priceHistory_bounded_witness :
    ∃ out, chainDerive (List.replicate 15 (demoTicker "A" 1)) "" = some out ∧
      out.priceHistory =
        ((List.replicate 15 (demoTicker "A" 1)).map tickerPrice).drop 5 ∧
      out.priceHistory.length = 10 :=
  (priceHistory_bounded (List.replicate 15 (demoTicker "A" 1)) "" (by simp)).2

/-! C3 -/

/-- C3: the classifier agrees with the ordered rule table of the spec —
the first 3 matching predicates in the fixed order, Momentum when none
matched and change% above 5, In Play when still none — and every record
carries between 1 and 3 tags. -/
theorem strategy_tags_spec (s : ProcessedStock) :
    getStrategy s = specStrategy s ∧
    1 ≤ (getStrategy s).length ∧ (getStrategy s).length ≤ 3 := by
  have hfm : ∀ (p : ProcessedStock → Bool) (t : String)
      (rest : List ((ProcessedStock → Bool) × String)),
      ((((p, t) :: rest).filter (fun r => r.1 s)).map (fun r => r.2)) =
        (if p s then [t] else []) ++ ((rest.filter (fun r => r.1 s)).map (fun r => r.2)) := by
    intro p t rest
    by_cases h : p s = true <;> simp [List.filter_cons, h]
  have heq : getStrategy s = specStrategy s := by
    simp only [getStrategy, jsOr_zero]
    simp only [specStrategy, specStrategyRules, hfm, List.filter_nil, List.map_nil,
      List.append_nil]
    simp only [decide_eq_true_eq]
    by_cases h1 : 0 < s.float ∧ s.float < 20000000 ∧ 4 ≤ s.gapPercent ∧ 1 ≤ s.price ∧
        s.price ≤ 20 ∧ 5 ≤ s.rVol <;>
      (first | simp only [eq_true h1] | simp only [eq_false h1]) <;>
    by_cases h2 : 0 < s.float ∧ s.float < 10000000 ∧ 5 < s.rVol <;>
      (first | simp only [eq_true h2] | simp only [eq_false h2]) <;>
    by_cases h3 : 20 < s.gapPercent <;>
      (first | simp only [eq_true h3] | simp only [eq_false h3]) <;>
    by_cases h4 : -2 < s.vwapDistance ∧ s.vwapDistance < 2 ∧ 3 < s.changePercent <;>
      (first | simp only [eq_true h4] | simp only [eq_false h4]) <;>
    by_cases h5 : s.dayHigh * (99 / 100) ≤ s.price ∧ 0 < s.changePercent <;>
      (first | simp only [eq_true h5] | simp only [eq_false h5]) <;>
    by_cases h6 : 10 < s.gapPercent ∧ 3 < s.rVol <;>
      (first | simp only [eq_true h6] | simp only [eq_false h6]) <;>
    by_cases h7 : 5 < s.changePercent <;>
      (first | simp only [eq_true h7] | simp only [eq_false h7]) <;>
    simp
  refine ⟨heq, ?_, ?_⟩
  · rw [heq]
    simp only [specStrategy]
    split
    · split <;> norm_num
    · rename_i h
      exact List.length_pos.mpr h
  · rw [heq]
    simp only [specStrategy]
    split
    · split <;> norm_num
    · simp [List.length_take]

/-! C2 -/

theorem mem_validStocks {s : ProcessedStock} {processed : List ProcessedStock}
    (h : s ∈ validStocks processed) : 0 < s.price ∧ 0 < s.volume := by
  have := (List.mem_filter.mp h).2
  simpa using this

theorem gapDescLE_trans (a b c : ProcessedStock) (hab : gapDescLE a b = true)
    (hbc : gapDescLE b c = true) : gapDescLE a c = true := by
  simp only [gapDescLE, decide_eq_true_eq] at *
  exact le_trans hbc hab

theorem gapDescLE_total (a b : ProcessedStock) : (gapDescLE a b || gapDescLE b a) = true := by
  simpa [gapDescLE] using le_total b.gapPercent a.gapPercent

theorem mergeSort_gapDesc_sorted (l : List ProcessedStock) :
    List.Sorted (fun a b => b.gapPercent ≤ a.gapPercent) (l.mergeSort gapDescLE) := by
  have := List.sorted_mergeSort gapDescLE_trans gapDescLE_total l
  exact this.imp (fun h => by simpa [gapDescLE] using h)

/-- C2: the pipeline discards records with non-positive price or volume;
when some valid record has gap% above 4 the gappers view is exactly the
valid gap-above-4 records sorted by gap% descending and truncated to the
25 largest (complete when at most 25 qualify), otherwise it is the first
25 valid records in original order; hence the view is non-empty whenever
a valid record exists. -/
theorem gappers_view_spec (processed : List ProcessedStock) :
    (∀ s ∈ (scannerViews processed).gappers,
      s ∈ validStocks processed ∧ 0 < s.price ∧ 0 < s.volume)
    ∧ ((validStocks processed).filter (fun s => decide (4 < s.gapPercent)) ≠ [] →
      (scannerViews processed).gappers =
        (((validStocks processed).filter (fun s => decide (4 < s.gapPercent))).mergeSort
          gapDescLE).take 25
      ∧ List.Sorted (fun a b => b.gapPercent ≤ a.gapPercent) (scannerViews processed).gappers
      ∧ (∀ s ∈ (scannerViews processed).gappers, 4 < s.gapPercent)
      ∧ (scannerViews processed).gappers.length =
          min 25 ((validStocks processed).filter (fun s => decide (4 < s.gapPercent))).length
      ∧ (((validStocks processed).filter (fun s => decide (4 < s.gapPercent))).length ≤ 25 →
          ∀ s ∈ (validStocks processed).filter (fun s => decide (4 < s.gapPercent)),
            s ∈ (scannerViews processed).gappers)
      ∧ ∀ a ∈ (scannerViews processed).gappers,
          ∀ b ∈ (((validStocks processed).filter (fun s => decide (4 < s.gapPercent))).mergeSort
            gapDescLE).drop 25, b.gapPercent ≤ a.gapPercent)
    ∧ ((validStocks processed).filter (fun s => decide (4 < s.gapPercent)) = [] →
      (scannerViews processed).gappers = (validStocks processed).take 25)
    ∧ (validStocks processed ≠ [] → (scannerViews processed).gappers ≠ []) := by
  have hperm := List.mergeSort_perm
    ((validStocks processed).filter (fun s => decide (4 < s.gapPercent))) gapDescLE
  have hsorted := mergeSort_gapDesc_sorted
    ((validStocks processed).filter (fun s => decide (4 < s.gapPercent)))
  have hsv : (scannerViews processed).gappers =
      if 0 < (gappersView processed).length then gappersView processed
      else (validStocks processed).take 25 := rfl
  have hgv : gappersView processed =
      (((validStocks processed).filter (fun s => decide (4 < s.gapPercent))).mergeSort
        gapDescLE).take 25 := rfl
  by_cases hhot : (validStocks processed).filter (fun s => decide (4 < s.gapPercent)) = []
  · have hempty : (scannerViews processed).gappers = (validStocks processed).take 25 := by
      rw [hsv, hgv, hhot]
      simp
    refine ⟨?_, fun h => absurd hhot h, fun _ => hempty, ?_⟩
    · intro s hs
      rw [hempty] at hs
      have hv : s ∈ validStocks processed := List.mem_of_mem_take hs
      exact ⟨hv, mem_validStocks hv⟩
    · intro hv
      rw [hempty]
      simp [List.take_eq_nil_iff, hv]
  · have hpos : 0 < (gappersView processed).length := by
      rw [hgv, List.length_take, hperm.length_eq]
      have : 0 < ((validStocks processed).filter
          (fun s => decide (4 < s.gapPercent))).length := List.length_pos.mpr hhot
      omega
    have hview : (scannerViews processed).gappers =
        (((validStocks processed).filter (fun s => decide (4 < s.gapPercent))).mergeSort
          gapDescLE).take 25 := by
      rw [hsv, if_pos hpos, hgv]
    have hmemhot : ∀ s ∈ (scannerViews processed).gappers,
        s ∈ (validStocks processed).filter (fun s => decide (4 < s.gapPercent)) := by
      intro s hs
      rw [hview] at hs
      exact hperm.mem_iff.mp (List.mem_of_mem_take hs)
    refine ⟨?_, fun _ => ⟨hview, ?_, ?_, ?_, ?_, ?_⟩, fun h => absurd h hhot, fun _ => ?_⟩
    · intro s hs
      have hv : s ∈ validStocks processed := (List.mem_filter.mp (hmemhot s hs)).1
      exact ⟨hv, mem_validStocks hv⟩
    · rw [hview]
      exact hsorted.sublist (List.take_sublist _ _)
    · intro s hs
      have := (List.mem_filter.mp (hmemhot s hs)).2
      simpa using this
    · rw [hview, List.length_take, hperm.length_eq]
    · intro hle s hs
      rw [hview, List.take_of_length_le (by rw [hperm.length_eq]; exact hle)]
      exact hperm.mem_iff.mpr hs
    · intro a ha b hb
      rw [hview] at ha
      exact hsorted.rel_of_mem_take_of_mem_drop ha hb
    · rw [hview]
      have hne : (((validStocks processed).filter
          (fun s => decide (4 < s.gapPercent))).mergeSort gapDescLE) ≠ [] := by
        intro h
        apply hhot
        have hlen := hperm.length_eq
        rw [h] at hlen
        exact List.length_eq_zero.mp hlen.symm
      simp [List.take_eq_nil_iff, hne]

/-- Witness for C2 on a concrete processed list: one valid high-gap record
and one invalid record (zero volume). -/
theorem gappers_view_spec_witness :
    (scannerViews [demoStock "HI" 0 10 5 2]).gappers ≠ [] :=
  (gappers_view_spec [demoStock "HI" 0 10 5 2]).2.2.2
    (by simp [validStocks, demoStock])

end TradingDashboard
